import Mathlib

/-!
# Verification of `list_models.py`

A shallow embedding of the model-listing module and proofs of its
specified properties.

Modelling conventions:
* The process environment is a function `String → Option String`
  (`os.getenv` returns the variable's value or `None`).
* Python truthiness of an optional string (`if not key:`) is `falsy`:
  `None` and the empty string are both falsy.
* The remote listing call (`genai.list_models()` / `client.models.list()`)
  is modelled by a parameter `fetch : Except ε (List String)`: either the
  list of raw identifiers it would return (`.ok`), or a raised exception of
  an arbitrary type `ε` (`.error`).  The `try`/`except` block of the source
  becomes a `match` on this parameter.
* Python strings are `String`; Python string comparison is code-point
  lexicographic, i.e. the order on `String.data : List Char`.
* `print` calls relevant to the claims (the missing-key warnings of
  `get_api_keys`) are modelled as a returned `logs` field.
-/

namespace ListModels

/-- The process environment: maps a variable name to its value, if set. -/
def Env : Type := String → Option String

/-- Python truthiness test `not s` for an optional string:
`None` and `""` are falsy, every other string is truthy. -/
def falsy : Option String → Bool
  | none => true
  | some s => s = ""

/-- Result of `get_api_keys`: the two optional keys, plus the warning lines
printed for the keys that are falsy. -/
structure ApiKeys where
  gemini_api_key : Option String
  openai_api_key : Option String
  logs : List String

/-- `get_api_keys()`: reads `GEMINI_API_KEY` and `OPENAI_API_KEY` from the
environment and warns for each one that is missing (falsy).  The
`try`/`except` wrapper in the source is dead code (`os.getenv` does not
raise), so it is not modelled. -/
def get_api_keys (env : Env) : ApiKeys :=
  let gemini_api_key := env "GEMINI_API_KEY"
  let openai_api_key := env "OPENAI_API_KEY"
  { gemini_api_key := gemini_api_key
    openai_api_key := openai_api_key
    logs :=
      (if falsy gemini_api_key then
        ["Warning: GEMINI_API_KEY environment variable not set."] else []) ++
      (if falsy openai_api_key then
        ["Warning: OPENAI_API_KEY environment variable not set."] else []) }

/-- Python's `str.split(sep)` for a one-character separator, on the
character list of the string.  `"".split(c) = [""]`, and every occurrence
of `sep` starts a new (possibly empty) segment. -/
def splitSeg (sep : Char) : List Char → List (List Char)
  | [] => [[]]
  | c :: cs =>
      if c = sep then [] :: splitSeg sep cs
      else
        match splitSeg sep cs with
        | [] => [[c]]
        | seg :: rest => (c :: seg) :: rest

/-- `name.split('/')[-1]`: the segment after the last `'/'` (the whole
string when it has no `'/'`).  `splitSeg` never returns `[]`, so the
default of `getLastD` is never used. -/
def normalizeName (name : String) : String :=
  ((splitSeg '/' name.data).getLastD []).asString

/-- The loop `for model in defaults: if model not in model_names:
model_names.append(model)` — appends each default identifier that is not
already present (checking against the list as it grows). -/
def appendMissing (model_names : List String) (defaults : List String) : List String :=
  defaults.foldl (fun acc model => if model ∈ acc then acc else acc ++ [model]) model_names

/-- Python's code-point lexicographic order on strings, as the order on
their character lists. -/
def strLeData (a b : String) : Prop := a.data ≤ b.data

instance : DecidableRel strLeData := fun a b =>
  inferInstanceAs (Decidable (a.data ≤ b.data))

instance : IsTrans String strLeData := ⟨fun _ _ _ => le_trans⟩

instance : IsTotal String strLeData := ⟨fun a b => le_total a.data b.data⟩

/-- Python's `sorted`: the ascending lexicographic reordering of a list of
strings.  (`sorted` returns a sorted permutation of its input; for a linear
order that list is unique, so insertion sort computes it.) -/
def pySorted (l : List String) : List String := l.insertionSort strLeData

/-- `default_gemini_models` from `get_gemini_models`. -/
def default_gemini_models : List String :=
  [ "gemini-2.5-pro-exp-03-25",
    "gemini-2.0-flash",
    "gemini-2.0-flash-lite",
    "gemini-2.0-flash-exp-image-generation",
    "gemini-1.5-pro",
    "gemini-1.5-flash",
    "gemini-1.5-flash-8b",
    "imagen-3.0-generate-002" ]

/-- Body of the `try` block of `get_gemini_models` after a successful
`genai.list_models()` returning the raw names `models`: normalize each
name, append the missing defaults, and sort. -/
def gemini_fetch_success (models : List String) : List String :=
  let model_names := models.map normalizeName
  let model_names := appendMissing model_names default_gemini_models
  pySorted model_names

/-- `get_gemini_models()`.  `fetch` is the behaviour of the remote call:
it is consulted only when the key is truthy. -/
def get_gemini_models {ε : Type} (env : Env) (fetch : Except ε (List String)) :
    List String :=
  let gemini_api_key := (get_api_keys env).gemini_api_key
  if falsy gemini_api_key then
    default_gemini_models
  else
    match fetch with
    | .ok models => gemini_fetch_success models
    | .error _ => default_gemini_models

/-- `default_openai_models` from `get_openai_models`. -/
def default_openai_models : List String :=
  [ "gpt-4o-mini",
    "gpt-4o-mini-2024-07-18",
    "gpt-3.5-turbo",
    "gpt-3.5-turbo-0125",
    "gpt-3.5-turbo-16k",
    "o1-preview",
    "o1-preview-2024-09-12",
    "o1-mini",
    "o1-mini-2024-09-12",
    "deepseek-ai/deepseek-r1" ]

/-- Body of the `try` block of `get_openai_models` after a successful
`client.models.list()` returning the ids `models`: identifiers are used as
returned (no normalization), missing defaults appended, then sorted. -/
def openai_fetch_success (models : List String) : List String :=
  let model_ids := models
  let model_ids := appendMissing model_ids default_openai_models
  pySorted model_ids

/-- `get_openai_models()`. -/
def get_openai_models {ε : Type} (env : Env) (fetch : Except ε (List String)) :
    List String :=
  let openai_api_key := (get_api_keys env).openai_api_key
  if falsy openai_api_key then
    default_openai_models
  else
    match fetch with
    | .ok models => openai_fetch_success models
    | .error _ => default_openai_models

/-- `get_gemini_image_models()`: a hardcoded two-element list. -/
def get_gemini_image_models : List String :=
  ["gemini-2.0-flash-exp-image-generation", "imagen-3.0-generate-002"]

/-- A concrete environment in which both keys are set (used for concrete
evaluations of the success path). -/
def testEnv : Env := fun name =>
  if name = "GEMINI_API_KEY" then some "g-key"
  else if name = "OPENAI_API_KEY" then some "o-key"
  else none

/-- A concrete environment in which both keys are set to the empty
string. -/
def emptyEnv : Env := fun name =>
  if name = "GEMINI_API_KEY" then some ""
  else if name = "OPENAI_API_KEY" then some ""
  else none

/-- A concrete environment with no variables set. -/
def noEnv : Env := fun _ => none

/-- A concrete environment in which only `GEMINI_API_KEY` is set. -/
def geminiOnlyEnv : Env := fun name =>
  if name = "GEMINI_API_KEY" then some "g-key" else none

/-- A concrete environment in which only `OPENAI_API_KEY` is set. -/
def openaiOnlyEnv : Env := fun name =>
  if name = "OPENAI_API_KEY" then some "o-key" else none

/-! ## Basic lemmas about the embedded operations -/

theorem get_api_keys_gemini (env : Env) :
    (get_api_keys env).gemini_api_key = env "GEMINI_API_KEY" := rfl

theorem get_api_keys_openai (env : Env) :
    (get_api_keys env).openai_api_key = env "OPENAI_API_KEY" := rfl

theorem get_gemini_models_def {ε : Type} (env : Env) (fetch : Except ε (List String)) :
    get_gemini_models env fetch =
      if falsy (env "GEMINI_API_KEY") then default_gemini_models
      else
        match fetch with
        | .ok models => gemini_fetch_success models
        | .error _ => default_gemini_models := rfl

theorem get_openai_models_def {ε : Type} (env : Env) (fetch : Except ε (List String)) :
    get_openai_models env fetch =
      if falsy (env "OPENAI_API_KEY") then default_openai_models
      else
        match fetch with
        | .ok models => openai_fetch_success models
        | .error _ => default_openai_models := rfl

theorem strLeData_iff_le (a b : String) : strLeData a b ↔ a ≤ b := by
  unfold strLeData
  exact String.le_iff_toList_le.symm

theorem pySorted_perm (l : List String) : (pySorted l).Perm l :=
  List.perm_insertionSort strLeData l

theorem mem_pySorted (l : List String) (x : String) : x ∈ pySorted l ↔ x ∈ l :=
  (pySorted_perm l).mem_iff

theorem nodup_pySorted (l : List String) (h : l.Nodup) : (pySorted l).Nodup :=
  (pySorted_perm l).nodup_iff.mpr h

theorem sorted_pySorted (l : List String) : List.Sorted (· ≤ ·) (pySorted l) :=
  (List.sorted_insertionSort strLeData l).imp fun h => (strLeData_iff_le _ _).mp h

theorem mem_appendMissing (ds : List String) :
    ∀ (ms : List String) (x : String), x ∈ appendMissing ms ds ↔ x ∈ ms ∨ x ∈ ds := by
  induction ds with
  | nil => intro ms x; simp [appendMissing]
  | cons d ds ih =>
      intro ms x
      have step : appendMissing ms (d :: ds) =
          appendMissing (if d ∈ ms then ms else ms ++ [d]) ds := rfl
      rw [step, ih]
      by_cases hd : d ∈ ms
      · rw [if_pos hd]
        constructor
        · rintro (h | h)
          · exact Or.inl h
          · exact Or.inr (List.mem_cons_of_mem _ h)
        · rintro (h | h)
          · exact Or.inl h
          · rcases List.mem_cons.mp h with rfl | h
            · exact Or.inl hd
            · exact Or.inr h
      · rw [if_neg hd]
        simp only [List.mem_append, List.mem_singleton, List.mem_cons]
        tauto

theorem nodup_appendMissing (ds : List String) :
    ∀ ms : List String, ms.Nodup → (appendMissing ms ds).Nodup := by
  induction ds with
  | nil => intro ms h; exact h
  | cons d ds ih =>
      intro ms h
      have step : appendMissing ms (d :: ds) =
          appendMissing (if d ∈ ms then ms else ms ++ [d]) ds := rfl
      rw [step]
      by_cases hd : d ∈ ms
      · rw [if_pos hd]; exact ih ms h
      · rw [if_neg hd]
        refine ih _ ?_
        simp [List.nodup_append, h, hd]

theorem splitSeg_ne_nil (sep : Char) (l : List Char) : splitSeg sep l ≠ [] := by
  cases l with
  | nil => simp [splitSeg]
  | cons c cs =>
      unfold splitSeg
      by_cases hc : c = sep
      · simp [hc]
      · rw [if_neg hc]
        cases h : splitSeg sep cs <;> simp

theorem splitSeg_of_not_mem {sep : Char} {l : List Char} (h : sep ∉ l) :
    splitSeg sep l = [l] := by
  induction l with
  | nil => rfl
  | cons c cs ih =>
      simp only [List.mem_cons, not_or] at h
      obtain ⟨h1, h2⟩ := h
      have hc : ¬ c = sep := fun e => h1 e.symm
      unfold splitSeg
      rw [if_neg hc, ih h2]

theorem splitSeg_cons (sep c : Char) (cs : List Char) :
    splitSeg sep (c :: cs) =
      if c = sep then [] :: splitSeg sep cs
      else
        match splitSeg sep cs with
        | [] => [[c]]
        | seg :: rest => (c :: seg) :: rest := rfl

theorem splitSeg_append (sep : Char) (l₁ l₂ : List Char) :
    ∃ pre, pre ≠ [] ∧ splitSeg sep (l₁ ++ sep :: l₂) = pre ++ splitSeg sep l₂ := by
  induction l₁ with
  | nil =>
      refine ⟨[[]], by simp, ?_⟩
      rw [List.nil_append, splitSeg_cons, if_pos rfl]
      rfl
  | cons c cs ih =>
      obtain ⟨pre, hne, heq⟩ := ih
      by_cases hc : c = sep
      · refine ⟨[] :: pre, by simp, ?_⟩
        rw [List.cons_append, splitSeg_cons, if_pos hc, heq]
        rfl
      · cases pre with
        | nil => exact absurd rfl hne
        | cons p ps =>
            refine ⟨(c :: p) :: ps, by simp, ?_⟩
            rw [List.cons_append, splitSeg_cons, if_neg hc, heq, List.cons_append]
            rfl

theorem getLastD_of_ne_nil {α : Type} {l : List α} (h : l ≠ []) (d₁ d₂ : α) :
    l.getLastD d₁ = l.getLastD d₂ := by
  cases l with
  | nil => exact absurd rfl h
  | cons a as => rfl

theorem getLastD_append_of_ne_nil {α : Type} {l₂ : List α} (h : l₂ ≠ []) :
    ∀ (l₁ : List α) (d : α), (l₁ ++ l₂).getLastD d = l₂.getLastD d := by
  intro l₁
  induction l₁ with
  | nil => intro d; rfl
  | cons a l₁ ih =>
      intro d
      rw [List.cons_append, List.getLastD_cons, ih a]
      exact getLastD_of_ne_nil h a d

theorem normalizeName_of_not_mem {s : String} (h : '/' ∉ s.data) :
    normalizeName s = s := by
  unfold normalizeName
  rw [splitSeg_of_not_mem h]
  rfl

theorem normalizeName_append (a b : String) (h : '/' ∉ b.data) :
    normalizeName (a ++ "/" ++ b) = b := by
  unfold normalizeName
  have hdata : (a ++ "/" ++ b).data = a.data ++ '/' :: b.data := by
    rw [String.data_append, String.data_append]
    have : ("/" : String).data = ['/'] := rfl
    rw [this, List.append_assoc]
    rfl
  rw [hdata]
  obtain ⟨pre, hne, heq⟩ := splitSeg_append '/' a.data b.data
  rw [heq, getLastD_append_of_ne_nil (splitSeg_ne_nil '/' b.data),
    splitSeg_of_not_mem h]
  rfl

theorem gemini_of_falsy {ε : Type} (env : Env) (fetch : Except ε (List String))
    (h : falsy (env "GEMINI_API_KEY") = true) :
    get_gemini_models env fetch = default_gemini_models := by
  rw [get_gemini_models_def, h]
  simp

theorem gemini_of_ok {ε : Type} (env : Env) (models : List String)
    (h : falsy (env "GEMINI_API_KEY") = false) :
    get_gemini_models (ε := ε) env (.ok models) = gemini_fetch_success models := by
  rw [get_gemini_models_def, h]
  simp

theorem gemini_of_error {ε : Type} (env : Env) (e : ε) :
    get_gemini_models env (.error e) = default_gemini_models := by
  rw [get_gemini_models_def]
  cases hf : falsy (env "GEMINI_API_KEY") <;> simp

theorem openai_of_falsy {ε : Type} (env : Env) (fetch : Except ε (List String))
    (h : falsy (env "OPENAI_API_KEY") = true) :
    get_openai_models env fetch = default_openai_models := by
  rw [get_openai_models_def, h]
  simp

theorem openai_of_ok {ε : Type} (env : Env) (models : List String)
    (h : falsy (env "OPENAI_API_KEY") = false) :
    get_openai_models (ε := ε) env (.ok models) = openai_fetch_success models := by
  rw [get_openai_models_def, h]
  simp

theorem openai_of_error {ε : Type} (env : Env) (e : ε) :
    get_openai_models env (.error e) = default_openai_models := by
  rw [get_openai_models_def]
  cases hf : falsy (env "OPENAI_API_KEY") <;> simp

theorem default_gemini_models_nodup : default_gemini_models.Nodup := by decide

theorem default_openai_models_nodup : default_openai_models.Nodup := by decide

/-! ## The claims -/

/-- C1: for every credential state and every behaviour of the remote
listing call (success, or an exception of an arbitrary type `ε`),
`get_gemini_models` and `get_openai_models` return a list on every
execution path: either the provider's default list, or the merged list
built from a successful fetch.  (In the embedding the functions are total,
so "never raises" is expressed as this exhaustive description of the
possible return values.) -/
theorem C1_never_raises :
    (∀ (ε : Type) (env : Env) (fetch : Except ε (List String)),
      get_gemini_models env fetch = default_gemini_models ∨
      ∃ models, fetch = Except.ok models ∧
        get_gemini_models env fetch = gemini_fetch_success models) ∧
    (∀ (ε : Type) (env : Env) (fetch : Except ε (List String)),
      get_openai_models env fetch = default_openai_models ∨
      ∃ models, fetch = Except.ok models ∧
        get_openai_models env fetch = openai_fetch_success models) := by
  constructor
  · intro ε env fetch
    cases hf : falsy (env "GEMINI_API_KEY") with
    | true => exact Or.inl (gemini_of_falsy env fetch hf)
    | false =>
        cases fetch with
        | ok models => exact Or.inr ⟨models, rfl, gemini_of_ok env models hf⟩
        | error e => exact Or.inl (gemini_of_error env e)
  · intro ε env fetch
    cases hf : falsy (env "OPENAI_API_KEY") with
    | true => exact Or.inl (openai_of_falsy env fetch hf)
    | false =>
        cases fetch with
        | ok models => exact Or.inr ⟨models, rfl, openai_of_ok env models hf⟩
        | error e => exact Or.inl (openai_of_error env e)

/-- C2: whenever the remote listing call raises an exception — of any type
`ε` and any value `e` — `get_gemini_models` (resp. `get_openai_models`)
returns exactly the provider's default list, for every credential state;
no partial or merged result is ever produced on the exception path. -/
theorem C2_fallback_on_exception :
    (∀ (ε : Type) (env : Env) (e : ε),
      get_gemini_models env (.error e) = default_gemini_models) ∧
    (∀ (ε : Type) (env : Env) (e : ε),
      get_openai_models env (.error e) = default_openai_models) :=
  ⟨fun _ env e => gemini_of_error env e, fun _ env e => openai_of_error env e⟩

/-- C3: when the provider's credential is absent from the environment,
`get_gemini_models` (resp. `get_openai_models`) returns the provider's
default list verbatim; the result is the same for every possible remote
behaviour `fetch`, i.e. no remote call influences it. -/
theorem C3_missing_credential :
    (∀ env : Env, env "GEMINI_API_KEY" = none →
      ∀ (ε : Type) (fetch : Except ε (List String)),
        get_gemini_models env fetch = default_gemini_models) ∧
    (∀ env : Env, env "OPENAI_API_KEY" = none →
      ∀ (ε : Type) (fetch : Except ε (List String)),
        get_openai_models env fetch = default_openai_models) := by
  constructor
  · intro env h ε fetch
    exact gemini_of_falsy env fetch (by rw [h]; rfl)
  · intro env h ε fetch
    exact openai_of_falsy env fetch (by rw [h]; rfl)

/-- C3 witness: with no environment variables set, both listings return
their default lists even when the remote call would have succeeded. -/
theorem C3_witness :
    get_gemini_models (ε := Unit) noEnv (.ok ["models/x"]) = default_gemini_models ∧
    get_openai_models (ε := Unit) noEnv (.ok ["x"]) = default_openai_models :=
  ⟨C3_missing_credential.1 noEnv rfl Unit (.ok ["models/x"]),
   C3_missing_credential.2 noEnv rfl Unit (.ok ["x"])⟩

/-- C4 counterexample: the claim "the returned list contains no duplicate
elements, including for fetches whose raw identifiers normalize to equal
strings" is false: with the key set, a successful fetch of
`["models/a", "a"]` normalizes to `["a", "a"]` and both copies survive
into the returned list, which therefore has a duplicate.  The loop over
the defaults deduplicates only the default insertions, never the fetched
identifiers themselves. -/
theorem C4_counterexample :
    ¬ (get_gemini_models (ε := Unit) testEnv (.ok ["models/a", "a"])).Nodup := by
  decide

/-- C4 (amended): for every successful remote fetch whose fetched
identifiers are pairwise distinct after normalization (resp. pairwise
distinct as returned, for the second provider), the returned list contains
no duplicate elements.  (No hypothesis on the credential is needed: when
the key is falsy the default list is returned, and it has no
duplicates.) -/
theorem C4_nodup_amended :
    (∀ (ε : Type) (env : Env) (fetch : Except ε (List String)) (models : List String),
      fetch = Except.ok models → (models.map normalizeName).Nodup →
      (get_gemini_models env fetch).Nodup) ∧
    (∀ (ε : Type) (env : Env) (fetch : Except ε (List String)) (models : List String),
      fetch = Except.ok models → models.Nodup →
      (get_openai_models env fetch).Nodup) := by
  constructor
  · intro ε env fetch models hfetch hnodup
    subst hfetch
    cases hf : falsy (env "GEMINI_API_KEY") with
    | true => rw [gemini_of_falsy env _ hf]; exact default_gemini_models_nodup
    | false =>
        rw [gemini_of_ok env models hf]
        simp only [gemini_fetch_success]
        exact nodup_pySorted _ (nodup_appendMissing _ _ hnodup)
  · intro ε env fetch models hfetch hnodup
    subst hfetch
    cases hf : falsy (env "OPENAI_API_KEY") with
    | true => rw [openai_of_falsy env _ hf]; exact default_openai_models_nodup
    | false =>
        rw [openai_of_ok env models hf]
        simp only [openai_fetch_success]
        exact nodup_pySorted _ (nodup_appendMissing _ _ hnodup)

/-- C4 witness: concrete duplicate-free fetches produce duplicate-free
results for both providers. -/
theorem C4_witness :
    (get_gemini_models (ε := Unit) testEnv (.ok ["models/a", "models/b"])).Nodup ∧
    (get_openai_models (ε := Unit) testEnv (.ok ["m1", "m2"])).Nodup :=
  ⟨C4_nodup_amended.1 Unit testEnv _ ["models/a", "models/b"] rfl (by decide),
   C4_nodup_amended.2 Unit testEnv _ ["m1", "m2"] rfl (by decide)⟩

/-- C5: for every successful remote fetch (credential truthy, remote call
returns `models`), the returned list's membership is exactly the
normalized fetched identifiers together with the default identifiers:
every element is one of these, and every default identifier is present
(in particular each default missing from the fetched set is added). -/
theorem C5_membership :
    (∀ (ε : Type) (env : Env) (fetch : Except ε (List String)) (models : List String),
      falsy (env "GEMINI_API_KEY") = false → fetch = Except.ok models →
      ∀ x : String, x ∈ get_gemini_models env fetch ↔
        (x ∈ models.map normalizeName ∨ x ∈ default_gemini_models)) ∧
    (∀ (ε : Type) (env : Env) (fetch : Except ε (List String)) (models : List String),
      falsy (env "OPENAI_API_KEY") = false → fetch = Except.ok models →
      ∀ x : String, x ∈ get_openai_models env fetch ↔
        (x ∈ models ∨ x ∈ default_openai_models)) := by
  constructor
  · intro ε env fetch models hf hfetch x
    subst hfetch
    rw [gemini_of_ok env models hf]
    simp only [gemini_fetch_success]
    rw [mem_pySorted, mem_appendMissing]
  · intro ε env fetch models hf hfetch x
    subst hfetch
    rw [openai_of_ok env models hf]
    simp only [openai_fetch_success]
    rw [mem_pySorted, mem_appendMissing]

/-- C5 witness: a concrete instantiation of the membership description,
at a fetched element and at a default element for each provider. -/
theorem C5_witness :
    ("a" ∈ get_gemini_models (ε := Unit) testEnv (.ok ["models/a"]) ↔
      ("a" ∈ (["models/a"].map normalizeName) ∨ "a" ∈ default_gemini_models)) ∧
    ("gpt-4o-mini" ∈ get_openai_models (ε := Unit) testEnv (.ok ["m1"]) ↔
      ("gpt-4o-mini" ∈ (["m1"] : List String) ∨ "gpt-4o-mini" ∈ default_openai_models)) :=
  ⟨C5_membership.1 Unit testEnv _ ["models/a"] (by decide) rfl "a",
   C5_membership.2 Unit testEnv _ ["m1"] (by decide) rfl "gpt-4o-mini"⟩

/-- C6: for every successful remote fetch, the returned list is sorted
ascending in the (case-sensitive, code-point lexicographic) string
order. -/
theorem C6_sorted :
    (∀ (ε : Type) (env : Env) (fetch : Except ε (List String)) (models : List String),
      falsy (env "GEMINI_API_KEY") = false → fetch = Except.ok models →
      List.Sorted (· ≤ ·) (get_gemini_models env fetch)) ∧
    (∀ (ε : Type) (env : Env) (fetch : Except ε (List String)) (models : List String),
      falsy (env "OPENAI_API_KEY") = false → fetch = Except.ok models →
      List.Sorted (· ≤ ·) (get_openai_models env fetch)) := by
  constructor
  · intro ε env fetch models hf hfetch
    subst hfetch
    rw [gemini_of_ok env models hf]
    simp only [gemini_fetch_success]
    exact sorted_pySorted _
  · intro ε env fetch models hf hfetch
    subst hfetch
    rw [openai_of_ok env models hf]
    simp only [openai_fetch_success]
    exact sorted_pySorted _

/-- C6 witness: concrete successful fetches yield sorted results. -/
theorem C6_witness :
    List.Sorted (· ≤ ·) (get_gemini_models (ε := Unit) testEnv (.ok ["models/z", "models/a"])) ∧
    List.Sorted (· ≤ ·) (get_openai_models (ε := Unit) testEnv (.ok ["zz", "aa"])) :=
  ⟨C6_sorted.1 Unit testEnv _ ["models/z", "models/a"] (by decide) rfl,
   C6_sorted.2 Unit testEnv _ ["zz", "aa"] (by decide) rfl⟩

/-- C7: normalization of a raw first-provider identifier keeps exactly the
segment after the last `'/'`: the concrete example
`"models/gemini-2.0-flash"` normalizes to `"gemini-2.0-flash"`, an
identifier without `'/'` is unchanged, and for any identifier of the form
`a ++ "/" ++ b` with `b` separator-free everything up to and including the
final `'/'` is removed, leaving `b`. -/
theorem C7_normalization :
    normalizeName "models/gemini-2.0-flash" = "gemini-2.0-flash" ∧
    (∀ s : String, '/' ∉ s.data → normalizeName s = s) ∧
    (∀ a b : String, '/' ∉ b.data → normalizeName (a ++ "/" ++ b) = b) :=
  ⟨by decide, fun _ h => normalizeName_of_not_mem h, fun a b h => normalizeName_append a b h⟩

/-- C7 witness: concrete instances of the two general parts of the
normalization description. -/
theorem C7_witness :
    normalizeName "gemini-1.5-pro" = "gemini-1.5-pro" ∧
    normalizeName ("tunedModels" ++ "/" ++ "my-model") = "my-model" :=
  ⟨C7_normalization.2.1 "gemini-1.5-pro" (by decide),
   C7_normalization.2.2 "tunedModels" "my-model" (by decide)⟩

/-- C8: `get_gemini_image_models` is a constant: it takes no inputs (it
reads neither the environment nor any remote data) and returns exactly
the hardcoded two-element list. -/
theorem C8_image_models_constant :
    get_gemini_image_models =
      ["gemini-2.0-flash-exp-image-generation", "imagen-3.0-generate-002"] := rfl

/-- C9: the listings are deterministic functions of their inputs: the
result of `get_gemini_models` (resp. `get_openai_models`) depends only on
the value of the provider's own environment variable and on the remote
response (or exception); two invocations agreeing on these produce
identical lists.  There is no other state. -/
theorem C9_deterministic :
    (∀ (ε : Type) (env₁ env₂ : Env) (f₁ f₂ : Except ε (List String)),
      env₁ "GEMINI_API_KEY" = env₂ "GEMINI_API_KEY" → f₁ = f₂ →
      get_gemini_models env₁ f₁ = get_gemini_models env₂ f₂) ∧
    (∀ (ε : Type) (env₁ env₂ : Env) (f₁ f₂ : Except ε (List String)),
      env₁ "OPENAI_API_KEY" = env₂ "OPENAI_API_KEY" → f₁ = f₂ →
      get_openai_models env₁ f₁ = get_openai_models env₂ f₂) := by
  constructor
  · intro ε env₁ env₂ f₁ f₂ henv hf
    subst hf
    rw [get_gemini_models_def, get_gemini_models_def, henv]
  · intro ε env₁ env₂ f₁ f₂ henv hf
    subst hf
    rw [get_openai_models_def, get_openai_models_def, henv]

/-- C9 witness: two different environments agreeing on the relevant key,
with the same remote response, give identical outputs. -/
theorem C9_witness :
    get_gemini_models (ε := Unit) testEnv (.ok ["models/m"]) =
      get_gemini_models (ε := Unit) geminiOnlyEnv (.ok ["models/m"]) ∧
    get_openai_models (ε := Unit) testEnv (.ok ["m"]) =
      get_openai_models (ε := Unit) openaiOnlyEnv (.ok ["m"]) :=
  ⟨C9_deterministic.1 Unit testEnv geminiOnlyEnv _ _ (by decide) rfl,
   C9_deterministic.2 Unit testEnv openaiOnlyEnv _ _ (by decide) rfl⟩

/-- C10: a credential set to the empty string is treated exactly like an
absent credential: `get_api_keys` prints the missing-key warning for it,
and the corresponding listing returns the default list whatever the
remote behaviour would have been (no remote call is consulted). -/
theorem C10_empty_credential :
    (∀ env : Env, env "GEMINI_API_KEY" = some "" →
      "Warning: GEMINI_API_KEY environment variable not set." ∈ (get_api_keys env).logs ∧
      ∀ (ε : Type) (fetch : Except ε (List String)),
        get_gemini_models env fetch = default_gemini_models) ∧
    (∀ env : Env, env "OPENAI_API_KEY" = some "" →
      "Warning: OPENAI_API_KEY environment variable not set." ∈ (get_api_keys env).logs ∧
      ∀ (ε : Type) (fetch : Except ε (List String)),
        get_openai_models env fetch = default_openai_models) := by
  constructor
  · intro env h
    have hg : falsy (env "GEMINI_API_KEY") = true := by rw [h]; rfl
    constructor
    · simp [get_api_keys, hg]
    · intro ε fetch
      exact gemini_of_falsy env fetch hg
  · intro env h
    have ho : falsy (env "OPENAI_API_KEY") = true := by rw [h]; rfl
    constructor
    · simp [get_api_keys, ho]
    · intro ε fetch
      exact openai_of_falsy env fetch ho

/-- C10 witness: with both keys set to the empty string, both warnings are
printed and both listings fall back to their defaults despite a remote
call that would have succeeded. -/
theorem C10_witness :
    "Warning: GEMINI_API_KEY environment variable not set." ∈ (get_api_keys emptyEnv).logs ∧
    get_gemini_models (ε := Unit) emptyEnv (.ok ["models/x"]) = default_gemini_models ∧
    "Warning: OPENAI_API_KEY environment variable not set." ∈ (get_api_keys emptyEnv).logs ∧
    get_openai_models (ε := Unit) emptyEnv (.ok ["x"]) = default_openai_models :=
  ⟨(C10_empty_credential.1 emptyEnv (by decide)).1,
   (C10_empty_credential.1 emptyEnv (by decide)).2 Unit (.ok ["models/x"]),
   (C10_empty_credential.2 emptyEnv (by decide)).1,
   (C10_empty_credential.2 emptyEnv (by decide)).2 Unit (.ok ["x"])⟩

end ListModels
